import Mathlib

/-!
Shallow embedding of the RoboClaw wrapper layer of SGVHAK_Rover
(file SGVHAK_Rover/roboclaw_wrapper.py) together with proofs of the
specification claims about it.

Modelling conventions:
* Python values that can reach the wrapper API are modelled by `PyVal`;
  Python `bool` is a subtype of `int`, so the int classification and the
  numeric comparisons treat booleans as 0 and 1.  Python floats are
  modelled by exact rationals.
* Python `int(x)` is truncation toward zero, modelled by `pyint`.
* Each wrapper operation is a pure function of the driver behaviour
  (`Driver`), the wrapper state (`WrapperState`), and its arguments; it
  returns an `Outcome`, recording the driver calls issued in order
  together with the returned value or the raised error.
* Python exceptions are modelled by `RCError`: the various `ValueError`
  raises of the source map to `invalidIdentifier`, `notConnected`,
  `outOfRange`, `driverError` and `connectionFailed` according to the
  raise site; `attrError`, `indexError` and `zeroDivision` model the
  `AttributeError`, `IndexError` and `ZeroDivisionError` that Python
  itself raises on the corresponding operations.
-/

namespace RoboClawWrapper

/-- Model of the Python values that can reach the wrapper API. -/
inductive PyVal : Type where
  | int (n : ℤ)
  | bool (b : Bool)
  | float (q : ℚ)
  | str (s : String)
  | tuple (xs : List PyVal)
  | list (xs : List PyVal)

/-- Python `isinstance(x, (tuple, list))`. -/
def pyIsSeq : PyVal → Bool
  | .tuple _ => true
  | .list _ => true
  | _ => false

/-- The elements of a tuple or list (junk value on other inputs). -/
def seqElems : PyVal → List PyVal
  | .tuple xs => xs
  | .list xs => xs
  | _ => []

/-- Python `isinstance(x, int)`: true for ints and for booleans,
because `bool` is a subtype of `int` in Python. -/
def pyIsInt : PyVal → Bool
  | .int _ => true
  | .bool _ => true
  | _ => false

/-- Python `isinstance(x, bool)`. -/
def pyIsBool : PyVal → Bool
  | .bool _ => true
  | _ => false

/-- Numeric value of an int-classified Python value (junk otherwise). -/
def pyToInt : PyVal → ℤ
  | .int n => n
  | .bool b => cond b 1 0
  | _ => 0

/-- Python equality test of a value against an integer literal. -/
def pyEqInt (v : PyVal) (k : ℤ) : Bool :=
  match v with
  | .int n => n == k
  | .bool b => (cond b 1 0 : ℤ) == k
  | .float q => q == (k : ℚ)
  | _ => false

/-- Python truthiness of a value. -/
def pyTruthy : PyVal → Bool
  | .int n => n != 0
  | .bool b => b
  | .float q => q != 0
  | .str s => s ≠ ""
  | .tuple xs => !xs.isEmpty
  | .list xs => !xs.isEmpty

/-- Python `int(x)` on a number: truncation toward zero.  On an exact
rational this is the T-division of the numerator by the denominator. -/
def pyint (q : ℚ) : ℤ := q.num.tdiv q.den

/-- Numeric value of a Python number (junk on non-numbers). -/
def pyNum : PyVal → ℚ
  | .int n => n
  | .bool b => cond b 1 0
  | .float q => q
  | _ => 0

/-- The errors the wrapper layer can raise. -/
inductive RCError : Type where
  | invalidIdentifier (msg : String)
  | notConnected
  | outOfRange (msg : String)
  | driverError (msg : String) (raw : List PyVal)
  | connectionFailed (msg : String)
  | attrError (missing : String)
  | indexError
  | zeroDivision

/-- The calls into the driver collaborator (real or simulated RoboClaw
API), one constructor per API entry point used by the wrapper. -/
inductive DriverCall : Type where
  | ForwardBackwardM1 (address level : ℤ)
  | ForwardBackwardM2 (address level : ℤ)
  | SetM1MaxCurrent (address : ℤ) (current : ℚ)
  | SetM2MaxCurrent (address : ℤ) (current : ℚ)
  | SetM1VelocityPID (address : ℤ) (p i d qpps : ℚ)
  | SetM2VelocityPID (address : ℤ) (p i d qpps : ℚ)
  | SetM1PositionPID (address : ℤ) (p i d maxi deadzone minpos maxpos : ℚ)
  | SetM2PositionPID (address : ℤ) (p i d maxi deadzone minpos maxpos : ℚ)
  | SpeedAccelM1 (address : ℤ) (accel : ℚ) (qpps : ℤ)
  | SpeedAccelM2 (address : ℤ) (accel : ℚ) (qpps : ℤ)
  | SpeedAccelDeccelPositionM1 (address : ℤ) (accel speed deccel : ℚ) (position buffered : ℤ)
  | SpeedAccelDeccelPositionM2 (address : ℤ) (accel speed deccel : ℚ) (position buffered : ℤ)
  | SetEncM1 (address value : ℤ)
  | SetEncM2 (address value : ℤ)
  | ReadVersion (address : ℤ)
  | ReadMainBatteryVoltage (address : ℤ)
deriving DecidableEq

/-- The driver collaborator behaviour: a write call returns a success
boolean, a read call returns a result tuple. -/
structure Driver : Type where
  wset : DriverCall → Bool
  rget : DriverCall → List PyVal

/-- Result of a wrapper operation: the driver calls issued, in order,
together with the returned value or the raised error. -/
inductive Outcome (α : Type) : Type where
  | ok (calls : List DriverCall) (val : α)
  | err (calls : List DriverCall) (e : RCError)

/-- The driver calls issued by an operation, whether it succeeded or
raised. -/
def Outcome.calls {α : Type} : Outcome α → List DriverCall
  | .ok cs _ => cs
  | .err cs _ => cs

/-- Sequencing of two stateless wrapper steps, accumulating the issued
driver calls; a raise in the first step skips the second. -/
def Outcome.andThen {α β : Type} : Outcome α → (α → Outcome β) → Outcome β
  | .err cs e, _ => .err cs e
  | .ok cs v, f =>
    match f v with
    | .err cs2 e => .err (cs ++ cs2) e
    | .ok cs2 w => .ok (cs ++ cs2) w

/-- The buffered parameter into the RoboClaw API (source line 29). -/
def immediate_execution : ℤ := 1

/-- Default error message of `apiget` (used when a caller omits the
`errormessage` argument). -/
def getterDefault : String := "RoboClaw API Getter"

/-- Default error message of `apiset`. -/
def setterDefault : String := "RoboClaw API Setter"

/-- Function `apiget(result_tuple, errormessage)` of the source: index zero of a
read result is 1 for success and 0 for failure; on failure a
`ValueError` carrying the message and the raw tuple is raised.  On
success, `len(result_tuple) == 2` (exactly one element after the flag)
returns that element by itself, otherwise the remaining elements are
returned as a tuple.  Indexing an empty tuple raises `IndexError` in
Python. -/
def apiget (result_tuple : List PyVal) (errormessage : String) : Except RCError PyVal :=
  match result_tuple with
  | [] => .error .indexError
  | flag :: rest =>
    if pyEqInt flag 0 then .error (.driverError errormessage (flag :: rest))
    else
      match rest with
      | [v] => .ok v
      | _ => .ok (.tuple rest)

/-- Function `apiset(result, errormessage)` of the source: a write result must be
truthy, otherwise a `ValueError` carrying the message is raised. -/
def apiset (result : Bool) (errormessage : String) : Except RCError Unit :=
  if !result then .error (.driverError errormessage []) else .ok ()

/-- Issue one write call to the driver and adapt its boolean result
through `apiset`. -/
def dispatchSet (drv : Driver) (c : DriverCall) (msg : String) : Outcome Unit :=
  match apiset (drv.wset c) msg with
  | .ok _ => .ok [c] ()
  | .error e => .err [c] e

/-- Velocity PID parameter record (`p`, `i`, `d`, `qpps` keys of the
configuration dictionaries). -/
structure VelocityPIDParams : Type where
  p : ℚ
  i : ℚ
  d : ℚ
  qpps : ℚ
deriving DecidableEq

/-- Position PID parameter record (`p`, `i`, `d`, `maxi`, `deadzone`
keys of the configuration dictionaries). -/
structure PositionPIDParams : Type where
  p : ℚ
  i : ℚ
  d : ℚ
  maxi : ℚ
  deadzone : ℚ
deriving DecidableEq

/-- Hardstop record of the angle profile: maximum travel in encoder
counts and the corresponding maximum angle in degrees. -/
structure HardstopParams : Type where
  count : ℚ
  angle : ℚ
deriving DecidableEq

/-- The `velocity` configuration profile. -/
structure VelocityProfile : Type where
  maxCurrent : ℚ
  velocity : VelocityPIDParams
  maxVelocity : ℚ
  acceleration : ℚ
deriving DecidableEq

/-- The `angle` configuration profile. -/
structure AngleProfile : Type where
  maxCurrent : ℚ
  velocity : VelocityPIDParams
  position : PositionPIDParams
  hardstop : HardstopParams
  accel : ℚ
  speed : ℚ
  decel : ℚ
deriving DecidableEq

/-- The two profile attributes that `connect` stores on the wrapper. -/
structure Profiles : Type where
  velocityparams : VelocityProfile
  angleparams : AngleProfile
deriving DecidableEq

/-- The mutable state of a `roboclaw_wrapper` object: whether
`self.roboclaw` holds a handle, and whether the profile attributes have
been set (they are both set by `connect`, before the transport is
opened; reading them earlier raises `AttributeError`). -/
structure WrapperState : Type where
  connected : Bool
  profiles : Option Profiles

/-- The state produced by `__init__`: `self.roboclaw = None` and no
profile attributes. -/
def initialState : WrapperState := { connected := false, profiles := none }

/-- Function `connect` of the source: it first stores the two profiles, then
either installs the stub (simulated transport), or opens the real
transport and installs the handle only when the open succeeds.  A
failed open therefore leaves the profiles loaded but no handle. -/
def connect (pr : Profiles) (simulated openOk : Bool) (st : WrapperState) :
    WrapperState × Option RCError :=
  let st1 : WrapperState := { connected := st.connected, profiles := some pr }
  if simulated then ({ st1 with connected := true }, none)
  else if openOk then ({ st1 with connected := true }, none)
  else (st1, some (.connectionFailed "Could not connect to RoboClaw."))

/-- The field checks of `check_id` once the identifier is known to be a
three element tuple or list, in source order. -/
def check_fields (a m inv : PyVal) : Except RCError (PyVal × PyVal × PyVal) :=
  if pyIsInt a = false then
    .error (.invalidIdentifier "RoboClaw address must be an integer")
  else if pyToInt a < 128 ∨ 135 < pyToInt a then
    .error (.invalidIdentifier "RoboClaw address must be in the range of 128 to 135 inclusive")
  else if pyIsInt m = false then
    .error (.invalidIdentifier "RoboClaw motor number must be an integer")
  else if pyEqInt m 1 = false ∧ pyEqInt m 2 = false then
    .error (.invalidIdentifier "RoboClaw motor number must be 1 or 2")
  else if pyIsBool inv = false then
    .error (.invalidIdentifier "Inverted status must be a boolean")
  else .ok (a, m, inv)

/-- The length check of `check_id` (`len(id) != 3`) followed by the
field checks. -/
def check_elems : List PyVal → Except RCError (PyVal × PyVal × PyVal)
  | [a, m, inv] => check_fields a m inv
  | _ =>
    .error (.invalidIdentifier "RoboClaw motor identifier must have three elements: address, motor number, and whether it is inverted")

/-- Function `check_id` of the source: the identifier must be a tuple or list of
exactly three elements; the address an int in 128..135; the motor
number an int equal to 1 or 2; the inverted flag a strict bool.  On
success the callers destructure the returned triple. -/
def check_id (id : PyVal) : Except RCError (PyVal × PyVal × PyVal) :=
  if pyIsSeq id = false then
    .error (.invalidIdentifier "RoboClaw motor identifier must be a tuple")
  else check_elems (seqElems id)

/-- The error message of `version`. -/
def versionMsg (address : ℤ) : String :=
  "RoboClaw ReadVersion @ " ++ toString address

/-- Function `version` of the source. -/
def version (drv : Driver) (st : WrapperState) (id : PyVal) : Outcome PyVal :=
  match check_id id with
  | .error e => .err [] e
  | .ok (a, _m, _inv) =>
    if st.connected = false then .err [] .notConnected
    else
      let c := DriverCall.ReadVersion (pyToInt a)
      match apiget (drv.rget c) (versionMsg (pyToInt a)) with
      | .ok v => .ok [c] v
      | .error e => .err [c] e

/-- The out-of-range message of `power_percent`. -/
def powerOutMsg (pct : ℤ) : String :=
  "Motor power percentage " ++ toString pct ++ " outside valid range from 0 to 100."

/-- The driver error message of `power_percent`. -/
def powerErrMsg (m : PyVal) (address level pct : ℤ) : String :=
  "RoboClaw M" ++ toString (pyToInt m) ++ "@" ++ toString address ++
    " power at " ++ toString level ++ " representing " ++ toString pct ++ " percent"

/-- The channel dispatch of `power_percent`: `if motor==1` selects the
M1 variant, anything else the M2 variant. -/
def fbCall (m : PyVal) (address level : ℤ) : DriverCall :=
  if pyEqInt m 1 then .ForwardBackwardM1 address level
  else .ForwardBackwardM2 address level

/-- Function `power_percent` of the source: `pct = int(percentage)`; values with
`abs(pct) > 100` raise; otherwise `level = int(64 + (pct*63)/100)` is
sent with the channel-specific ForwardBackward call. -/
def power_percent (drv : Driver) (st : WrapperState) (id : PyVal) (percentage : ℚ) :
    Outcome Unit :=
  match check_id id with
  | .error e => .err [] e
  | .ok (a, m, _inv) =>
    if st.connected = false then .err [] .notConnected
    else
      let pct := pyint percentage
      if 100 < |pct| then .err [] (.outOfRange (powerOutMsg pct))
      else
        let level := pyint (64 + ((pct : ℚ) * 63) / 100)
        dispatchSet drv (fbCall m (pyToInt a) level) (powerErrMsg m (pyToInt a) level pct)

/-- The channel dispatch of `set_max_current`. -/
def mcCall (m : PyVal) (address : ℤ) (current : ℚ) : DriverCall :=
  if pyEqInt m 1 then .SetM1MaxCurrent address current
  else .SetM2MaxCurrent address current

/-- Function `set_max_current` of the source.  The source builds a diagnostic
string but does not pass it to `apiset`, so a failure carries the
default `apiset` message. -/
def set_max_current (drv : Driver) (st : WrapperState) (id : PyVal) (current : ℚ) :
    Outcome Unit :=
  match check_id id with
  | .error e => .err [] e
  | .ok (a, m, _inv) =>
    if st.connected = false then .err [] .notConnected
    else
      dispatchSet drv (mcCall m (pyToInt a) current) setterDefault

/-- The driver error message of `set_velocity_pid`. -/
def vpidMsg (m : PyVal) (address : ℤ) (P : VelocityPIDParams) : String :=
  "RoboClaw M" ++ toString (pyToInt m) ++ "@" ++ toString address ++
    " Velocity P" ++ toString P.p ++ " I" ++ toString P.i ++
    " D" ++ toString P.d ++ " QPPS" ++ toString P.qpps

/-- The channel dispatch of `set_velocity_pid`. -/
def vpidCall (m : PyVal) (address : ℤ) (P : VelocityPIDParams) : DriverCall :=
  if pyEqInt m 1 then .SetM1VelocityPID address P.p P.i P.d P.qpps
  else .SetM2VelocityPID address P.p P.i P.d P.qpps

/-- Function `set_velocity_pid` of the source. -/
def set_velocity_pid (drv : Driver) (st : WrapperState) (id : PyVal)
    (params : VelocityPIDParams) : Outcome Unit :=
  match check_id id with
  | .error e => .err [] e
  | .ok (a, m, _inv) =>
    if st.connected = false then .err [] .notConnected
    else
      dispatchSet drv (vpidCall m (pyToInt a) params) (vpidMsg m (pyToInt a) params)

/-- Function `init_velocity` of the source: reads `self.velocityparams` (raising
`AttributeError` before `connect` ran), then applies the max current
limit and then the velocity PID coefficients of the velocity profile. -/
def init_velocity (drv : Driver) (st : WrapperState) (id : PyVal) : Outcome Unit :=
  match st.profiles with
  | none => .err [] (.attrError "velocityparams")
  | some pr =>
    (set_max_current drv st id pr.velocityparams.maxCurrent).andThen fun _ =>
      set_velocity_pid drv st id pr.velocityparams.velocity

/-- The out-of-range message of `velocity`. -/
def velocityOutMsg (v : ℚ) : String :=
  "Velocity percentage " ++ toString v ++ " exceeds maximum of 100"

/-- The driver error message of `velocity`. -/
def velErrMsg (qpps : ℤ) (accel : ℚ) (m : PyVal) (address : ℤ) : String :=
  "Velocity " ++ toString qpps ++ " acceleration " ++ toString accel ++
    " on RoboClaw M" ++ toString (pyToInt m) ++ "@" ++ toString address

/-- The channel dispatch of `velocity`. -/
def saCall (m : PyVal) (address : ℤ) (accel : ℚ) (qpps : ℤ) : DriverCall :=
  if pyEqInt m 1 then .SpeedAccelM1 address accel qpps
  else .SpeedAccelM2 address accel qpps

/-- Function `velocity` of the source: the range check truncates the percentage
with `int(...)`, while `qpps = int(maxVelocity * pct_velocity / 100)`
is computed from the untruncated percentage; `qpps` is negated when the
identifier is inverted. -/
def velocity (drv : Driver) (st : WrapperState) (id : PyVal) (pct_velocity : ℚ) :
    Outcome Unit :=
  match check_id id with
  | .error e => .err [] e
  | .ok (a, m, inv) =>
    if st.connected = false then .err [] .notConnected
    else if 100 < |pyint pct_velocity| then
      .err [] (.outOfRange (velocityOutMsg pct_velocity))
    else
      match st.profiles with
      | none => .err [] (.attrError "velocityparams")
      | some pr =>
        let qpps0 := pyint (pr.velocityparams.maxVelocity * pct_velocity / 100)
        let qpps := if pyTruthy inv then -qpps0 else qpps0
        dispatchSet drv (saCall m (pyToInt a) pr.velocityparams.acceleration qpps)
          (velErrMsg qpps pr.velocityparams.acceleration m (pyToInt a))

/-- The driver error message of `set_position_pid`. -/
def ppidMsg (m : PyVal) (address : ℤ) (P : PositionPIDParams) (limit : ℚ) : String :=
  "RoboClaw M" ++ toString (pyToInt m) ++ "@" ++ toString address ++
    " Position P" ++ toString P.p ++ " I" ++ toString P.i ++ " D" ++ toString P.d ++
    " MaxI" ++ toString P.maxi ++ " Deadzone" ++ toString P.deadzone ++
    " from " ++ toString (-limit) ++ " to " ++ toString limit

/-- The channel dispatch of `set_position_pid`: the limit is applied
symmetrically as `(-limit, limit)`. -/
def ppidCall (m : PyVal) (address : ℤ) (P : PositionPIDParams) (limit : ℚ) : DriverCall :=
  if pyEqInt m 1 then
    .SetM1PositionPID address P.p P.i P.d P.maxi P.deadzone (-limit) limit
  else
    .SetM2PositionPID address P.p P.i P.d P.maxi P.deadzone (-limit) limit

/-- Function `set_position_pid` of the source. -/
def set_position_pid (drv : Driver) (st : WrapperState) (id : PyVal)
    (params : PositionPIDParams) (limit : ℚ) : Outcome Unit :=
  match check_id id with
  | .error e => .err [] e
  | .ok (a, m, _inv) =>
    if st.connected = false then .err [] .notConnected
    else
      dispatchSet drv (ppidCall m (pyToInt a) params limit)
        (ppidMsg m (pyToInt a) params limit)

/-- Function `init_angle` of the source: reads `self.angleparams` (raising
`AttributeError` before `connect` ran), then applies the max current
limit, the velocity PID coefficients, and the position PID coefficients
with the hardstop count as symmetric position limit, all from the angle
profile. -/
def init_angle (drv : Driver) (st : WrapperState) (id : PyVal) : Outcome Unit :=
  match st.profiles with
  | none => .err [] (.attrError "angleparams")
  | some pr =>
    (set_max_current drv st id pr.angleparams.maxCurrent).andThen fun _ =>
      (set_velocity_pid drv st id pr.angleparams.velocity).andThen fun _ =>
        set_position_pid drv st id pr.angleparams.position pr.angleparams.hardstop.count

/-- Function `maxangle` of the source: it ignores its identifier argument and
performs no validation and no connection check; it only reads the
configured hardstop angle (raising `AttributeError` when the profiles
were never loaded). -/
def maxangle (_drv : Driver) (st : WrapperState) (_id : PyVal) : Outcome ℚ :=
  match st.profiles with
  | none => .err [] (.attrError "angleparams")
  | some pr => .ok [] pr.angleparams.hardstop.angle

/-- The out-of-range message of `angle`. -/
def angleOutMsg (d h : ℚ) : String :=
  "Steering angle " ++ toString d ++ " exceeds maximum of " ++ toString h ++
    " degrees off center"

/-- The driver error message of `angle`. -/
def angleErrMsg (position : ℤ) (accel speed decel : ℚ) (m : PyVal) (address : ℤ) : String :=
  "Position " ++ toString position ++ " via " ++ toString accel ++ "/" ++
    toString speed ++ "/" ++ toString decel ++ " on RoboClaw M" ++
    toString (pyToInt m) ++ "@" ++ toString address

/-- The channel dispatch of `angle`: the buffered argument is always
`immediate_execution`. -/
def sadpCall (m : PyVal) (address : ℤ) (accel speed decel : ℚ) (position : ℤ) :
    DriverCall :=
  if pyEqInt m 1 then
    .SpeedAccelDeccelPositionM1 address accel speed decel position immediate_execution
  else
    .SpeedAccelDeccelPositionM2 address accel speed decel position immediate_execution

/-- Function `angle` of the source: reads the hardstop configuration, range
checks the requested degrees against the hardstop angle, then converts
`position = int(hardstopcount * angle / hardstopangle)`, negated when
inverted, and dispatches the channel-specific position move with the
angle profile motion limits, always with immediate execution.  A zero
hardstop angle would make the division raise `ZeroDivisionError` in
Python. -/
def angle (drv : Driver) (st : WrapperState) (id : PyVal) (degrees : ℚ) : Outcome Unit :=
  match check_id id with
  | .error e => .err [] e
  | .ok (a, m, inv) =>
    if st.connected = false then .err [] .notConnected
    else
      match st.profiles with
      | none => .err [] (.attrError "angleparams")
      | some pr =>
        let hardstopangle := pr.angleparams.hardstop.angle
        let hardstopcount := pr.angleparams.hardstop.count
        if hardstopangle < |degrees| then
          .err [] (.outOfRange (angleOutMsg degrees hardstopangle))
        else if hardstopangle = 0 then .err [] .zeroDivision
        else
          let position0 := pyint (hardstopcount * degrees / hardstopangle)
          let position := if pyTruthy inv then -position0 else position0
          dispatchSet drv
            (sadpCall m (pyToInt a) pr.angleparams.accel pr.angleparams.speed
              pr.angleparams.decel position)
            (angleErrMsg position pr.angleparams.accel pr.angleparams.speed
              pr.angleparams.decel m (pyToInt a))

/-- The driver error message of `steer_setzero`. -/
def steerErrMsg (m : PyVal) (address : ℤ) : String :=
  "Reset encoder on RoboClaw M" ++ toString (pyToInt m) ++ "@" ++ toString address

/-- The channel dispatch of `steer_setzero`. -/
def encCall (m : PyVal) (address value : ℤ) : DriverCall :=
  if pyEqInt m 1 then .SetEncM1 address value else .SetEncM2 address value

/-- Function `steer_setzero` of the source: sets the encoder of the identified
channel to zero. -/
def steer_setzero (drv : Driver) (st : WrapperState) (id : PyVal) : Outcome Unit :=
  match check_id id with
  | .error e => .err [] e
  | .ok (a, m, _inv) =>
    if st.connected = false then .err [] .notConnected
    else
      dispatchSet drv (encCall m (pyToInt a) 0) (steerErrMsg m (pyToInt a))

/-- Function `input_voltage` of the source: reads the main battery voltage in
tenths of a volt and divides by `10.0`.  The source builds a diagnostic
string but does not pass it to `apiget`, so a failure carries the
default `apiget` message. -/
def input_voltage (drv : Driver) (st : WrapperState) (id : PyVal) : Outcome ℚ :=
  match check_id id with
  | .error e => .err [] e
  | .ok (a, _m, _inv) =>
    if st.connected = false then .err [] .notConnected
    else
      let c := DriverCall.ReadMainBatteryVoltage (pyToInt a)
      match apiget (drv.rget c) getterDefault with
      | .ok v => .ok [c] (pyNum v / 10)
      | .error e => .err [c] e

/-! ### Basic facts about the embedding -/

/-- On a nonnegative rational, Python truncation agrees with floor. -/
theorem pyint_eq_floor {q : ℚ} (h : 0 ≤ q) : pyint q = ⌊q⌋ := by
  rw [Rat.floor_def, pyint, Int.tdiv_eq_ediv (Rat.num_nonneg.mpr h) (Int.ofNat_nonneg q.den)]

/-- Python truncation is an odd function. -/
theorem pyint_neg (q : ℚ) : pyint (-q) = -pyint q := by
  simp [pyint, Rat.neg_num, Rat.neg_den, Int.neg_tdiv]

/-- On a nonpositive rational, Python truncation agrees with ceiling. -/
theorem pyint_eq_ceil {q : ℚ} (h : q ≤ 0) : pyint q = ⌈q⌉ := by
  have h2 : pyint (-q) = ⌊-q⌋ := pyint_eq_floor (neg_nonneg.mpr h)
  rw [pyint_neg, Int.floor_neg] at h2
  omega

/-- Python truncation of an integer is that integer. -/
theorem pyint_intCast (n : ℤ) : pyint (n : ℚ) = n := by
  simp [pyint, Rat.num_intCast, Rat.den_intCast, Int.tdiv_one]

/-- Truncation toward zero does not increase absolute value. -/
theorem pyint_abs_le {v : ℚ} {n : ℤ} (hn : 0 ≤ n) (h : |v| ≤ (n : ℚ)) :
    |pyint v| ≤ n := by
  rw [abs_le] at h ⊢
  rcases le_or_lt 0 v with hv | hv
  · rw [pyint_eq_floor hv]
    constructor
    · have : (0 : ℤ) ≤ ⌊v⌋ := Int.floor_nonneg.mpr hv
      omega
    · have h2 : ⌊v⌋ ≤ ⌊(n : ℚ)⌋ := Int.floor_le_floor h.2
      rwa [Int.floor_intCast] at h2
  · rw [pyint_eq_ceil hv.le]
    constructor
    · have h2 : ⌈((-n : ℤ) : ℚ)⌉ ≤ ⌈v⌉ := by
        apply Int.ceil_le_ceil
        push_cast
        exact h.1
      rwa [Int.ceil_intCast] at h2
    · have : ⌈v⌉ ≤ (0 : ℤ) := Int.ceil_le.mpr (by exact_mod_cast hv.le)
      omega

/-- The calls issued by `dispatchSet` are exactly the dispatched call,
whether the driver reports success or failure. -/
theorem dispatchSet_calls (drv : Driver) (c : DriverCall) (msg : String) :
    (dispatchSet drv c msg).calls = [c] := by
  unfold dispatchSet apiset
  rcases h : drv.wset c <;> simp [h, Outcome.calls]

/-! ### Sample concrete objects used by the witnesses and
counterexamples -/

/-- A valid identifier: address 128, motor 1, not inverted. -/
def idOk : PyVal := .tuple [.int 128, .int 1, .bool false]

/-- A valid identifier for motor 2 with the inversion flag set. -/
def idInv : PyVal := .tuple [.int 129, .int 2, .bool true]

/-- A driver on which every write succeeds and every read returns
`(1, 42)`. -/
def allOkDriver : Driver where
  wset _ := true
  rget _ := [.int 1, .int 42]

/-- A driver on which every write fails and every read returns the
failure tuple `(0,)`. -/
def failDriver : Driver where
  wset _ := false
  rget _ := [.int 0]

/-- Sample velocity PID coefficients. -/
def sampleVelPid : VelocityPIDParams := ⟨1, 2, 3, 18000⟩

/-- Sample position PID coefficients. -/
def samplePosPid : PositionPIDParams := ⟨4, 5, 6, 7, 8⟩

/-- Sample configuration profiles. -/
def sampleProfiles : Profiles where
  velocityparams := ⟨30, sampleVelPid, 1000, 5⟩
  angleparams := ⟨20, sampleVelPid, samplePosPid, ⟨1000, 30⟩, 7, 8, 9⟩

/-- Connected wrapper state holding the sample profiles. -/
def stOk : WrapperState := ⟨true, some sampleProfiles⟩

/-- Profiles whose velocity profile has `maxVelocity = 76`. -/
def profiles76 : Profiles where
  velocityparams := ⟨30, sampleVelPid, 76, 5⟩
  angleparams := sampleProfiles.angleparams

/-- Connected state with `maxVelocity = 76`. -/
def st76 : WrapperState := ⟨true, some profiles76⟩

/-- Profiles whose angle profile has hardstop count 17 and hardstop
angle 10. -/
def profiles1710 : Profiles where
  velocityparams := sampleProfiles.velocityparams
  angleparams := ⟨20, sampleVelPid, samplePosPid, ⟨17, 10⟩, 7, 8, 9⟩

/-- Connected state with hardstop count 17 and hardstop angle 10. -/
def st1710 : WrapperState := ⟨true, some profiles1710⟩

/-! ### Spec-side identifier validity (component 4.1 of the spec)

These predicates follow the words of the spec, to be compared with the
source function `check_id`.  The claim speaks of Python values, so
membership of the channel in the legal set is Python equality: a
Python `bool` is a subtype of `int` with `True == 1`, which is why
`pyIsInt` and `pyEqInt` appear here. -/

/-- The address is an integer lying in the closed range 128..135. -/
def validAddress (a : PyVal) : Prop :=
  pyIsInt a = true ∧ 128 ≤ pyToInt a ∧ pyToInt a ≤ 135

/-- The channel is an integer equal to one of the two legal values 1
and 2. -/
def validChannel (m : PyVal) : Prop :=
  pyIsInt m = true ∧ (pyEqInt m 1 = true ∨ pyEqInt m 2 = true)

/-- A valid identifier: a three field record whose address is an
integer in 128..135, whose channel is one of the two legal values, and
whose inversion field is a strict boolean. -/
def validId (v : PyVal) : Prop :=
  pyIsSeq v = true ∧
    ∃ a m i, seqElems v = [a, m, i] ∧ validAddress a ∧ validChannel m ∧ pyIsBool i = true

theorem check_fields_ok_iff (a m i : PyVal) :
    (∃ w, check_fields a m i = .ok w) ↔
      validAddress a ∧ validChannel m ∧ pyIsBool i = true := by
  unfold check_fields validAddress validChannel
  split_ifs with h1 h2 h3 h4 h5
  · constructor
    · rintro ⟨w, hw⟩; simp at hw
    · rintro ⟨⟨ha, _⟩, _⟩; rw [h1] at ha; cases ha
  · constructor
    · rintro ⟨w, hw⟩; simp at hw
    · rintro ⟨⟨_, hlo, hhi⟩, _⟩; omega
  · constructor
    · rintro ⟨w, hw⟩; simp at hw
    · rintro ⟨_, ⟨hm, _⟩, _⟩; rw [h3] at hm; cases hm
  · constructor
    · rintro ⟨w, hw⟩; simp at hw
    · rintro ⟨_, ⟨_, hor⟩, _⟩
      rcases hor with h | h
      · rw [h4.1] at h; cases h
      · rw [h4.2] at h; cases h
  · constructor
    · rintro ⟨w, hw⟩; simp at hw
    · rintro ⟨_, _, hb⟩; rw [h5] at hb; cases hb
  · simp only [Bool.not_eq_false] at h1 h3 h5
    simp only [not_or, not_lt] at h2
    simp only [not_and_or, Bool.not_eq_false] at h4
    exact iff_of_true ⟨(a, m, i), rfl⟩ ⟨⟨h1, h2.1, h2.2⟩, ⟨h3, h4⟩, h5⟩

theorem check_elems_ok_iff (xs : List PyVal) :
    (∃ w, check_elems xs = .ok w) ↔
      ∃ a m i, xs = [a, m, i] ∧ validAddress a ∧ validChannel m ∧ pyIsBool i = true := by
  rcases xs with _ | ⟨a, _ | ⟨m, _ | ⟨i, _ | ⟨d, t⟩⟩⟩⟩
  · simp [check_elems]
  · simp [check_elems]
  · simp [check_elems]
  · rw [show check_elems [a, m, i] = check_fields a m i from rfl]
    constructor
    · intro hex
      rcases (check_fields_ok_iff a m i).mp hex with ⟨h1, h2, h3⟩
      exact ⟨a, m, i, rfl, h1, h2, h3⟩
    · rintro ⟨a1, m1, i1, heq, h1, h2, h3⟩
      obtain ⟨rfl, rfl, rfl⟩ : a = a1 ∧ m = m1 ∧ i = i1 := by simpa using heq
      exact (check_fields_ok_iff a m i).mpr ⟨h1, h2, h3⟩
  · simp [check_elems]

theorem check_id_ok_iff (v : PyVal) : (∃ w, check_id v = .ok w) ↔ validId v := by
  unfold check_id validId
  cases v with
  | int n => simp [pyIsSeq]
  | bool b => simp [pyIsSeq]
  | float q => simp [pyIsSeq]
  | str s => simp [pyIsSeq]
  | tuple xs => simpa [pyIsSeq, seqElems] using check_elems_ok_iff xs
  | list xs => simpa [pyIsSeq, seqElems] using check_elems_ok_iff xs

/-- C4: identifier validation succeeds exactly on three field records
whose address is an integer in 128..135, whose channel is one of the
two legal values 1 and 2, and whose inversion field is a strict
boolean, returning the normalized triple; every other input fails with
an invalid-identifier error.  In particular `(128, 1, False)`
validates, while `(127, 1, False)`, `(128, 3, False)`,
`(128, 1, "no")` and every 2-tuple fail. -/
theorem check_id_spec :
    (∀ v : PyVal, (∃ w, check_id v = .ok w) ↔ validId v)
    ∧ check_id (.tuple [.int 128, .int 1, .bool false]) =
        .ok (.int 128, .int 1, .bool false)
    ∧ (∃ s, check_id (.tuple [.int 127, .int 1, .bool false]) =
        .error (.invalidIdentifier s))
    ∧ (∃ s, check_id (.tuple [.int 128, .int 3, .bool false]) =
        .error (.invalidIdentifier s))
    ∧ (∃ s, check_id (.tuple [.int 128, .int 1, .str "no"]) =
        .error (.invalidIdentifier s))
    ∧ (∀ x y : PyVal, ∃ s, check_id (.tuple [x, y]) =
        .error (.invalidIdentifier s)) :=
  ⟨check_id_ok_iff, rfl, ⟨_, rfl⟩, ⟨_, rfl⟩, ⟨_, rfl⟩, fun _ _ => ⟨_, rfl⟩⟩

/-- Witness for C4 at a concrete identifier. -/
theorem check_id_spec_w : validId idOk :=
  (check_id_spec.1 idOk).mp ⟨(.int 128, .int 1, .bool false), rfl⟩

/-- C5: the read adapter fails with a driver error carrying the context
string and the raw tuple whenever the leading status flag is the
failure value 0 (for example on the tuple `(0,)`); on success with
exactly one data element after the flag it returns that element
unwrapped (for example `(1, 123)` yields `123`); on success with any
other number of data elements it returns the remaining elements as an
ordered sequence. -/
theorem apiget_spec :
    (∀ (ctx : String) (flag : PyVal) (rest : List PyVal),
        (pyEqInt flag 0 = true →
          apiget (flag :: rest) ctx = .error (.driverError ctx (flag :: rest)))
      ∧ (pyEqInt flag 0 = false → ∀ v, rest = [v] →
          apiget (flag :: rest) ctx = .ok v)
      ∧ (pyEqInt flag 0 = false → rest.length ≠ 1 →
          apiget (flag :: rest) ctx = .ok (.tuple rest)))
    ∧ apiget [.int 0] getterDefault = .error (.driverError getterDefault [.int 0])
    ∧ apiget [.int 1, .int 123] getterDefault = .ok (.int 123) := by
  refine ⟨fun ctx flag rest => ⟨?_, ?_, ?_⟩, rfl, rfl⟩
  · intro h
    simp [apiget, h]
  · rintro h v rfl
    simp [apiget, h]
  · intro h hlen
    rcases rest with _ | ⟨x, _ | ⟨y, t⟩⟩
    · simp [apiget, h]
    · simp at hlen
    · simp [apiget, h]

/-- Witness for C5 at concrete tuples. -/
theorem apiget_spec_w :
    apiget [.int 1, .int 5, .int 6] getterDefault = .ok (.tuple [.int 5, .int 6]) :=
  (apiget_spec.1 getterDefault (.int 1) [.int 5, .int 6]).2.2 rfl (by decide)

/-- C10: when the set-max-current write or the main-battery-voltage
read reports failure, the raised error carries only the adapter default
context message; the operation-specific diagnostic string built by the
source is never passed to the adapter. -/
theorem default_context_spec :
    (∀ (drv : Driver) (st : WrapperState) (id a m i : PyVal) (cur : ℚ),
        check_id id = .ok (a, m, i) → st.connected = true →
        drv.wset (mcCall m (pyToInt a) cur) = false →
        set_max_current drv st id cur =
          .err [mcCall m (pyToInt a) cur] (.driverError setterDefault []))
    ∧ (∀ (drv : Driver) (st : WrapperState) (id a m i flag : PyVal)
        (rest : List PyVal),
        check_id id = .ok (a, m, i) → st.connected = true →
        drv.rget (.ReadMainBatteryVoltage (pyToInt a)) = flag :: rest →
        pyEqInt flag 0 = true →
        input_voltage drv st id =
          .err [.ReadMainBatteryVoltage (pyToInt a)]
            (.driverError getterDefault (flag :: rest))) := by
  constructor
  · intro drv st id a m i cur hid hc hw
    simp [set_max_current, hid, hc, dispatchSet, apiset, hw]
  · intro drv st id a m i flag rest hid hc hr hf
    simp [input_voltage, hid, hc, hr, apiget, hf]

/-- Witness for C10: a failing driver produces the default messages. -/
theorem default_context_spec_w :
    set_max_current failDriver stOk idOk 10 =
      .err [.SetM1MaxCurrent 128 10] (.driverError setterDefault [])
    ∧ input_voltage failDriver stOk idOk =
      .err [.ReadMainBatteryVoltage 128] (.driverError getterDefault [.int 0]) :=
  ⟨default_context_spec.1 failDriver stOk idOk _ _ _ 10 rfl rfl rfl,
   default_context_spec.2 failDriver stOk idOk _ _ _ (.int 0) [] rfl rfl rfl rfl⟩

/-! ### Evaluation helpers for the unit translator operations -/

/-- Compute `pyint` from floor bounds. -/
theorem pyint_eq_of {q : ℚ} {n : ℤ} (h1 : 0 ≤ q) (h2 : (n : ℚ) ≤ q)
    (h3 : q < (n : ℚ) + 1) : pyint q = n := by
  rw [pyint_eq_floor h1, Int.floor_eq_iff]
  exact ⟨h2, h3⟩

/-- On a validated identifier, a connected wrapper and an integer
percentage within range, `power_percent` reduces to the dispatch of the
channel-specific ForwardBackward call at the truncated level. -/
theorem power_percent_run (drv : Driver) (st : WrapperState) (id a m i : PyVal)
    (p : ℤ) (hid : check_id id = .ok (a, m, i)) (hc : st.connected = true)
    (hlo : -100 ≤ p) (hhi : p ≤ 100) :
    power_percent drv st id (p : ℚ) =
      dispatchSet drv (fbCall m (pyToInt a) (pyint (64 + (p : ℚ) * 63 / 100)))
        (powerErrMsg m (pyToInt a) (pyint (64 + (p : ℚ) * 63 / 100)) p) := by
  have hp : pyint ((p : ℤ) : ℚ) = p := pyint_intCast p
  have habs : ¬ (100 < |p|) := by
    push_neg
    rw [abs_le]
    exact ⟨hlo, hhi⟩
  simp [power_percent, hid, hc, hp, habs]

/-- On an integer percentage out of range, `power_percent` raises
before issuing any driver call. -/
theorem power_percent_oor (drv : Driver) (st : WrapperState) (id a m i : PyVal)
    (p : ℤ) (hid : check_id id = .ok (a, m, i)) (hc : st.connected = true)
    (hgt : 100 < |p|) :
    power_percent drv st id (p : ℚ) = .err [] (.outOfRange (powerOutMsg p)) := by
  have hp : pyint ((p : ℤ) : ℚ) = p := pyint_intCast p
  simp [power_percent, hid, hc, hp, hgt]

/-- The truncated drive level stays in the native range 1..127 for all
percentages in -100..100. -/
theorem power_level_bounds {p : ℤ} (hlo : -100 ≤ p) (hhi : p ≤ 100) :
    1 ≤ pyint (64 + (p : ℚ) * 63 / 100) ∧ pyint (64 + (p : ℚ) * 63 / 100) ≤ 127 := by
  have hp1 : (-100 : ℚ) ≤ (p : ℚ) := by exact_mod_cast hlo
  have hp2 : (p : ℚ) ≤ 100 := by exact_mod_cast hhi
  have hq1 : (1 : ℚ) ≤ 64 + (p : ℚ) * 63 / 100 := by linarith
  have hq2 : 64 + (p : ℚ) * 63 / 100 < 128 := by linarith
  have h0 : (0 : ℚ) ≤ 64 + (p : ℚ) * 63 / 100 := by linarith
  rw [pyint_eq_floor h0]
  constructor
  · exact Int.le_floor.mpr (by exact_mod_cast hq1)
  · have := Int.floor_lt.mpr (show 64 + (p : ℚ) * 63 / 100 < ((128 : ℤ) : ℚ) by
      exact_mod_cast hq2)
    omega

/-- On a validated identifier, a connected wrapper with profiles and a
percentage whose truncation is within range, `velocity` reduces to the
dispatch of the channel-specific SpeedAccel call. -/
theorem velocity_run (drv : Driver) (st : WrapperState) (id a m i : PyVal)
    (pr : Profiles) (v : ℚ) (hid : check_id id = .ok (a, m, i))
    (hc : st.connected = true) (hp : st.profiles = some pr)
    (hv : ¬ (100 < |pyint v|)) :
    velocity drv st id v =
      dispatchSet drv
        (saCall m (pyToInt a) pr.velocityparams.acceleration
          (if pyTruthy i then -pyint (pr.velocityparams.maxVelocity * v / 100)
           else pyint (pr.velocityparams.maxVelocity * v / 100)))
        (velErrMsg
          (if pyTruthy i then -pyint (pr.velocityparams.maxVelocity * v / 100)
           else pyint (pr.velocityparams.maxVelocity * v / 100))
          pr.velocityparams.acceleration m (pyToInt a)) := by
  simp [velocity, hid, hc, hp, hv]

/-- On a percentage whose truncation is out of range, `velocity` raises
before reading the profiles and before issuing any driver call. -/
theorem velocity_oor (drv : Driver) (st : WrapperState) (id a m i : PyVal)
    (v : ℚ) (hid : check_id id = .ok (a, m, i)) (hc : st.connected = true)
    (hgt : 100 < |pyint v|) :
    velocity drv st id v = .err [] (.outOfRange (velocityOutMsg v)) := by
  simp [velocity, hid, hc, hgt]

/-- On a validated identifier, a connected wrapper with profiles and a
degree value within the hardstop range (with a nonzero hardstop angle),
`angle` reduces to the dispatch of the channel-specific position move. -/
theorem angle_run (drv : Driver) (st : WrapperState) (id a m i : PyVal)
    (pr : Profiles) (d : ℚ) (hid : check_id id = .ok (a, m, i))
    (hc : st.connected = true) (hp : st.profiles = some pr)
    (hrange : ¬ (pr.angleparams.hardstop.angle < |d|))
    (hnz : ¬ (pr.angleparams.hardstop.angle = 0)) :
    angle drv st id d =
      dispatchSet drv
        (sadpCall m (pyToInt a) pr.angleparams.accel pr.angleparams.speed
          pr.angleparams.decel
          (if pyTruthy i then
            -pyint (pr.angleparams.hardstop.count * d / pr.angleparams.hardstop.angle)
           else pyint (pr.angleparams.hardstop.count * d / pr.angleparams.hardstop.angle)))
        (angleErrMsg
          (if pyTruthy i then
            -pyint (pr.angleparams.hardstop.count * d / pr.angleparams.hardstop.angle)
           else pyint (pr.angleparams.hardstop.count * d / pr.angleparams.hardstop.angle))
          pr.angleparams.accel pr.angleparams.speed pr.angleparams.decel m (pyToInt a)) := by
  simp [angle, hid, hc, hp, hrange, hnz]

/-- On a degree value beyond the hardstop angle, `angle` raises before
issuing any driver call. -/
theorem angle_oor (drv : Driver) (st : WrapperState) (id a m i : PyVal)
    (pr : Profiles) (d : ℚ) (hid : check_id id = .ok (a, m, i))
    (hc : st.connected = true) (hp : st.profiles = some pr)
    (hgt : pr.angleparams.hardstop.angle < |d|) :
    angle drv st id d =
      .err [] (.outOfRange (angleOutMsg d pr.angleparams.hardstop.angle)) := by
  simp [angle, hid, hc, hp, hgt]

/-! ### Claims about the unit translator -/

/-- Counterexample to C1 as stated: at p = 1 on a validated identifier
the issued drive level is 64 (the source truncates toward zero with
`int(...)`), while round(64 + 1*63/100) = round(64.63) = 65. -/
theorem power_percent_round_cex :
    (power_percent allOkDriver stOk idOk ((1 : ℤ) : ℚ)).calls =
      [.ForwardBackwardM1 128 64]
    ∧ round ((64 : ℚ) + ((1 : ℤ) : ℚ) * 63 / 100) = 65
    ∧ (64 : ℤ) ≠ 65 := by
  refine ⟨?_, ?_, by decide⟩
  · rw [power_percent_run allOkDriver stOk idOk _ _ _ 1 rfl rfl (by decide) (by decide),
      dispatchSet_calls]
    have h : pyint (64 + ((1 : ℤ) : ℚ) * 63 / 100) = 64 := by
      apply pyint_eq_of <;> norm_num
    rw [h]
    rfl
  · rw [round_eq, Int.floor_eq_iff]
    norm_num

/-- C1 (amended): for every validated identifier on a connected wrapper
and every integer p in -100..100, `power_percent` issues exactly the
channel-specific forward/backward-power driver call whose drive level
is the affine transform 64 + p*63/100 truncated toward zero (Python
`int`, not rounding to nearest), and that level lies in the closed
integer range 1..127; for every integer p with |p| > 100 it fails with
the out-of-range error and issues no driver call. -/
theorem power_percent_spec (drv : Driver) (st : WrapperState) (id a m i : PyVal)
    (p : ℤ) (hid : check_id id = .ok (a, m, i)) (hc : st.connected = true) :
    (-100 ≤ p → p ≤ 100 →
      (power_percent drv st id (p : ℚ)).calls =
        [fbCall m (pyToInt a) (pyint (64 + (p : ℚ) * 63 / 100))]
      ∧ 1 ≤ pyint (64 + (p : ℚ) * 63 / 100)
      ∧ pyint (64 + (p : ℚ) * 63 / 100) ≤ 127)
    ∧ (100 < |p| →
      power_percent drv st id (p : ℚ) = .err [] (.outOfRange (powerOutMsg p))) := by
  constructor
  · intro hlo hhi
    rw [power_percent_run drv st id a m i p hid hc hlo hhi, dispatchSet_calls]
    exact ⟨rfl, power_level_bounds hlo hhi⟩
  · exact power_percent_oor drv st id a m i p hid hc

/-- Witness for C1 at p = -99 (level 1) and p = 150 (rejected). -/
theorem power_percent_spec_w :
    (power_percent allOkDriver stOk idOk ((-99 : ℤ) : ℚ)).calls =
      [.ForwardBackwardM1 128 1]
    ∧ power_percent allOkDriver stOk idOk ((150 : ℤ) : ℚ) =
      .err [] (.outOfRange (powerOutMsg 150)) := by
  constructor
  · have h := (power_percent_spec allOkDriver stOk idOk _ _ _ (-99) rfl rfl).1
      (by decide) (by decide)
    rw [h.1]
    have e : pyint (64 + ((-99 : ℤ) : ℚ) * 63 / 100) = 1 := by
      apply pyint_eq_of <;> norm_num
    rw [e]
    rfl
  · exact (power_percent_spec allOkDriver stOk idOk _ _ _ 150 rfl rfl).2 (by decide)

/-- Counterexample to C2 as stated: with maxVelocity 76 and v = 2 the
issued qpps is 1 (truncation of 1.52), while round(76*2/100) = 2. -/
theorem velocity_round_cex :
    (velocity allOkDriver st76 idOk ((2 : ℤ) : ℚ)).calls = [.SpeedAccelM1 128 5 1]
    ∧ round ((76 : ℚ) * ((2 : ℤ) : ℚ) / 100) = 2
    ∧ (1 : ℤ) ≠ 2 := by
  refine ⟨?_, ?_, by decide⟩
  · rw [velocity_run allOkDriver st76 idOk _ _ _ profiles76 _ rfl rfl rfl
      (by rw [pyint_intCast]; decide), dispatchSet_calls]
    have e : pyint (profiles76.velocityparams.maxVelocity * ((2 : ℤ) : ℚ) / 100) = 1 := by
      rw [show profiles76.velocityparams.maxVelocity = 76 from rfl]
      apply pyint_eq_of <;> norm_num
    rw [e]
    rfl
  · rw [round_eq, Int.floor_eq_iff]
    norm_num

/-- C2 (amended): for every validated identifier on a connected wrapper
with loaded profiles and every percentage v with |v| ≤ 100, `velocity`
issues exactly the channel-specific speed-with-acceleration call whose
qpps is maxVelocity*v/100 truncated toward zero (Python `int`, not
rounding to nearest), negated exactly when the inversion flag is set,
with the profile acceleration; velocity at 150 fails with the
out-of-range error and issues no driver call. -/
theorem velocity_spec (drv : Driver) (st : WrapperState) (id a m i : PyVal)
    (pr : Profiles) (v : ℚ) (hid : check_id id = .ok (a, m, i))
    (hc : st.connected = true) (hp : st.profiles = some pr) :
    (|v| ≤ 100 →
      (velocity drv st id v).calls =
        [saCall m (pyToInt a) pr.velocityparams.acceleration
          (if pyTruthy i then -pyint (pr.velocityparams.maxVelocity * v / 100)
           else pyint (pr.velocityparams.maxVelocity * v / 100))])
    ∧ velocity drv st id ((150 : ℤ) : ℚ) =
        .err [] (.outOfRange (velocityOutMsg ((150 : ℤ) : ℚ))) := by
  constructor
  · intro hv
    have habs : ¬ (100 < |pyint v|) := by
      push_neg
      exact pyint_abs_le (by decide) (by exact_mod_cast hv)
    rw [velocity_run drv st id a m i pr v hid hc hp habs, dispatchSet_calls]
  · apply velocity_oor drv st id a m i _ hid hc
    rw [pyint_intCast]
    decide

/-- Witness for C2: at v = 50 with maxVelocity 1000 the qpps is 500; at
v = -50 on an inverted identifier the qpps is negated; v = 150 is
rejected. -/
theorem velocity_spec_w :
    (velocity allOkDriver stOk idOk ((50 : ℤ) : ℚ)).calls = [.SpeedAccelM1 128 5 500]
    ∧ (velocity allOkDriver stOk idInv ((50 : ℤ) : ℚ)).calls = [.SpeedAccelM2 129 5 (-500)]
    ∧ velocity allOkDriver stOk idOk ((150 : ℤ) : ℚ) =
        .err [] (.outOfRange (velocityOutMsg ((150 : ℤ) : ℚ))) := by
  have e : pyint (sampleProfiles.velocityparams.maxVelocity * ((50 : ℤ) : ℚ) / 100) = 500 := by
    rw [show sampleProfiles.velocityparams.maxVelocity = 1000 from rfl]
    apply pyint_eq_of <;> norm_num
  refine ⟨?_, ?_, ?_⟩
  · have h := (velocity_spec allOkDriver stOk idOk _ _ _ sampleProfiles
      ((50 : ℤ) : ℚ) rfl rfl rfl).1 (by norm_num)
    rw [h, e]
    rfl
  · have h := (velocity_spec allOkDriver stOk idInv _ _ _ sampleProfiles
      ((50 : ℤ) : ℚ) rfl rfl rfl).1 (by norm_num)
    rw [h, e]
    rfl
  · exact (velocity_spec allOkDriver stOk idOk _ _ _ sampleProfiles
      ((50 : ℤ) : ℚ) rfl rfl rfl).2

/-- Counterexample to C3 as stated: with hardstop count 17 and hardstop
angle 10, at d = 1 the issued position is 1 (truncation of 1.7), while
round(17*1/10) = 2. -/
theorem angle_round_cex :
    (angle allOkDriver st1710 idOk ((1 : ℤ) : ℚ)).calls =
      [.SpeedAccelDeccelPositionM1 128 7 8 9 1 1]
    ∧ round ((17 : ℚ) * ((1 : ℤ) : ℚ) / 10) = 2
    ∧ (1 : ℤ) ≠ 2 := by
  refine ⟨?_, ?_, by decide⟩
  · rw [angle_run allOkDriver st1710 idOk _ _ _ profiles1710 _ rfl rfl rfl
      (by norm_num [show profiles1710.angleparams.hardstop.angle = 10 from rfl])
      (by norm_num [show profiles1710.angleparams.hardstop.angle = 10 from rfl]),
      dispatchSet_calls]
    have e : pyint (profiles1710.angleparams.hardstop.count * ((1 : ℤ) : ℚ) /
        profiles1710.angleparams.hardstop.angle) = 1 := by
      rw [show profiles1710.angleparams.hardstop.count = 17 from rfl,
        show profiles1710.angleparams.hardstop.angle = 10 from rfl]
      apply pyint_eq_of <;> norm_num
    rw [e]
    rfl
  · rw [round_eq, Int.floor_eq_iff]
    norm_num

/-- C3 (amended): for every validated identifier on a connected wrapper
with loaded profiles whose hardstop angle is positive, and every d with
|d| ≤ hardstop angle, `angle` issues exactly the channel-specific
position-move call whose position is hardstop_count*d/hardstop_angle
truncated toward zero (Python `int`, not rounding to nearest), negated
exactly when the inversion flag is set, with the angle profile
acceleration, cruise speed and deceleration, always requesting
immediate (non-buffered) execution; at hardstop_angle + 1 it fails with
the out-of-range error and issues no driver call. -/
theorem angle_spec (drv : Driver) (st : WrapperState) (id a m i : PyVal)
    (pr : Profiles) (d : ℚ) (hid : check_id id = .ok (a, m, i))
    (hc : st.connected = true) (hp : st.profiles = some pr)
    (hpos : 0 < pr.angleparams.hardstop.angle) :
    (|d| ≤ pr.angleparams.hardstop.angle →
      (angle drv st id d).calls =
        [sadpCall m (pyToInt a) pr.angleparams.accel pr.angleparams.speed
          pr.angleparams.decel
          (if pyTruthy i then
            -pyint (pr.angleparams.hardstop.count * d / pr.angleparams.hardstop.angle)
           else
            pyint (pr.angleparams.hardstop.count * d / pr.angleparams.hardstop.angle))])
    ∧ (∀ addr acc sp de pos,
        sadpCall m addr acc sp de pos = .SpeedAccelDeccelPositionM1 addr acc sp de pos 1
        ∨ sadpCall m addr acc sp de pos = .SpeedAccelDeccelPositionM2 addr acc sp de pos 1)
    ∧ angle drv st id (pr.angleparams.hardstop.angle + 1) =
        .err [] (.outOfRange (angleOutMsg (pr.angleparams.hardstop.angle + 1)
          pr.angleparams.hardstop.angle)) := by
  refine ⟨?_, ?_, ?_⟩
  · intro hd
    rw [angle_run drv st id a m i pr d hid hc hp (not_lt.mpr hd)
      (by positivity), dispatchSet_calls]
  · intro addr acc sp de pos
    unfold sadpCall immediate_execution
    split_ifs with h
    · exact Or.inl rfl
    · exact Or.inr rfl
  · apply angle_oor drv st id a m i pr _ hid hc hp
    rw [abs_of_pos (by linarith)]
    linarith

/-- Witness for C3: with hardstop count 1000 and hardstop angle 30, at
d = 15 the position is 500; at the inverted identifier it is negated;
d = 31 is rejected. -/
theorem angle_spec_w :
    (angle allOkDriver stOk idOk ((15 : ℤ) : ℚ)).calls =
      [.SpeedAccelDeccelPositionM1 128 7 8 9 500 1]
    ∧ (angle allOkDriver stOk idInv ((15 : ℤ) : ℚ)).calls =
      [.SpeedAccelDeccelPositionM2 129 7 8 9 (-500) 1]
    ∧ angle allOkDriver stOk idOk (sampleProfiles.angleparams.hardstop.angle + 1) =
        .err [] (.outOfRange (angleOutMsg (sampleProfiles.angleparams.hardstop.angle + 1)
          sampleProfiles.angleparams.hardstop.angle)) := by
  have e : pyint (sampleProfiles.angleparams.hardstop.count * ((15 : ℤ) : ℚ) /
      sampleProfiles.angleparams.hardstop.angle) = 500 := by
    rw [show sampleProfiles.angleparams.hardstop.count = 1000 from rfl,
      show sampleProfiles.angleparams.hardstop.angle = 30 from rfl]
    apply pyint_eq_of <;> norm_num
  have hpos : (0 : ℚ) < sampleProfiles.angleparams.hardstop.angle := by
    rw [show sampleProfiles.angleparams.hardstop.angle = 30 from rfl]
    norm_num
  have habs : |((15 : ℤ) : ℚ)| ≤ sampleProfiles.angleparams.hardstop.angle := by
    rw [show sampleProfiles.angleparams.hardstop.angle = 30 from rfl]
    norm_num
  refine ⟨?_, ?_, ?_⟩
  · have h := (angle_spec allOkDriver stOk idOk _ _ _ sampleProfiles
      ((15 : ℤ) : ℚ) rfl rfl rfl hpos).1 habs
    rw [h, e]
    rfl
  · have h := (angle_spec allOkDriver stOk idInv _ _ _ sampleProfiles
      ((15 : ℤ) : ℚ) rfl rfl rfl hpos).1 habs
    rw [h, e]
    rfl
  · exact (angle_spec allOkDriver stOk idOk _ _ _ sampleProfiles
      ((15 : ℤ) : ℚ) rfl rfl rfl hpos).2.2

/-- C9: `velocity` raises the out-of-range error exactly when the
integer truncation of the percentage has absolute value greater than
100, while qpps is computed from the untruncated percentage: at 100.9
(= 1009/10) with maxVelocity 1000 the call is accepted and the issued
qpps 1009 exceeds the configured maxVelocity. -/
theorem velocity_trunc_spec (drv : Driver) (st : WrapperState) (id a m i : PyVal)
    (pr : Profiles) (v : ℚ) (hid : check_id id = .ok (a, m, i))
    (hc : st.connected = true) (hp : st.profiles = some pr) :
    ((∃ s, velocity drv st id v = .err [] (.outOfRange s)) ↔ 100 < |pyint v|)
    ∧ (velocity allOkDriver stOk idOk (mkRat 1009 10)).calls = [.SpeedAccelM1 128 5 1009]
    ∧ sampleProfiles.velocityparams.maxVelocity = 1000
    ∧ (1000 : ℤ) < 1009 := by
  refine ⟨⟨?_, ?_⟩, ?_, rfl, by decide⟩
  · rintro ⟨s, hs⟩
    by_contra hno
    rw [velocity_run drv st id a m i pr v hid hc hp hno] at hs
    have hcalls := congrArg Outcome.calls hs
    rw [dispatchSet_calls] at hcalls
    simp [Outcome.calls] at hcalls
  · intro hgt
    exact ⟨_, velocity_oor drv st id a m i v hid hc hgt⟩
  · rw [velocity_run allOkDriver stOk idOk _ _ _ sampleProfiles (mkRat 1009 10)
      rfl rfl rfl (by rw [show pyint (mkRat 1009 10) = 100 from rfl]; decide),
      dispatchSet_calls]
    have e : pyint (sampleProfiles.velocityparams.maxVelocity * mkRat 1009 10 / 100) =
        1009 := by
      rw [show sampleProfiles.velocityparams.maxVelocity = 1000 from rfl,
        Rat.mkRat_eq_div]
      apply pyint_eq_of <;> norm_num
    rw [e]
    rfl

/-- Witness for C9: at 101 percent the call is rejected; the accepted
100.9 percent case issues qpps 1009. -/
theorem velocity_trunc_spec_w :
    (∃ s, velocity allOkDriver stOk idOk ((101 : ℤ) : ℚ) = .err [] (.outOfRange s))
    ∧ (velocity allOkDriver stOk idOk (mkRat 1009 10)).calls =
        [.SpeedAccelM1 128 5 1009] := by
  have h := velocity_trunc_spec allOkDriver stOk idOk _ _ _ sampleProfiles
    ((101 : ℤ) : ℚ) rfl rfl rfl
  refine ⟨h.1.mpr ?_, h.2.1⟩
  rw [pyint_intCast]
  decide

/-! ### Claims about validation order and the calibration sequences -/

/-- Counterexample to C6 as stated: `maxangle` performs no identifier
validation: on a malformed identifier (a 2-tuple, rejected by
`check_id`) it does not fail with the invalid-identifier error; it
ignores the identifier and returns the configured hardstop angle. -/
theorem maxangle_no_validation_cex :
    check_id (.tuple [.int 1, .int 2]) =
      .error (.invalidIdentifier "RoboClaw motor identifier must have three elements: address, motor number, and whether it is inverted")
    ∧ maxangle allOkDriver stOk (.tuple [.int 1, .int 2]) = .ok [] 30 :=
  ⟨rfl, rfl⟩

/-- C6 (amended): on a wrapper with loaded profiles, every
identifier-taking operation except `maxangle` validates the identifier
first: on a malformed identifier it fails with the invalid-identifier
error produced by validation, before issuing any driver call.
`maxangle`, however, performs no validation at all: it ignores its
identifier and returns the configured hardstop angle. -/
theorem check_first_spec (drv : Driver) (st : WrapperState) (id : PyVal) (e : RCError)
    (pr : Profiles) (x cur lim : ℚ) (vp : VelocityPIDParams) (pp : PositionPIDParams)
    (hid : check_id id = .error e) (hp : st.profiles = some pr) :
    version drv st id = .err [] e
    ∧ power_percent drv st id x = .err [] e
    ∧ set_max_current drv st id cur = .err [] e
    ∧ set_velocity_pid drv st id vp = .err [] e
    ∧ init_velocity drv st id = .err [] e
    ∧ velocity drv st id x = .err [] e
    ∧ set_position_pid drv st id pp lim = .err [] e
    ∧ init_angle drv st id = .err [] e
    ∧ angle drv st id x = .err [] e
    ∧ steer_setzero drv st id = .err [] e
    ∧ input_voltage drv st id = .err [] e
    ∧ maxangle drv st id = .ok [] pr.angleparams.hardstop.angle := by
  refine ⟨?_, ?_, ?_, ?_, ?_, ?_, ?_, ?_, ?_, ?_, ?_, ?_⟩
  · simp [version, hid]
  · simp [power_percent, hid]
  · simp [set_max_current, hid]
  · simp [set_velocity_pid, hid]
  · simp [init_velocity, hp, set_max_current, hid, Outcome.andThen]
  · simp [velocity, hid]
  · simp [set_position_pid, hid]
  · simp [init_angle, hp, set_max_current, hid, Outcome.andThen]
  · simp [angle, hid]
  · simp [steer_setzero, hid]
  · simp [input_voltage, hid]
  · simp [maxangle, hp]

/-- Witness for C6 on a malformed identifier (a 2-tuple). -/
theorem check_first_spec_w :
    velocity allOkDriver stOk (.tuple [.int 1, .int 2]) 5 =
      .err [] (.invalidIdentifier "RoboClaw motor identifier must have three elements: address, motor number, and whether it is inverted")
    ∧ maxangle allOkDriver stOk (.tuple [.int 1, .int 2]) = .ok [] 30 := by
  have h := check_first_spec allOkDriver stOk (.tuple [.int 1, .int 2]) _
    sampleProfiles 5 5 5 sampleVelPid samplePosPid rfl rfl
  exact ⟨h.2.2.2.2.2.1, h.2.2.2.2.2.2.2.2.2.2.2⟩

/-- C7: `init_velocity` applies exactly two driver-configuration steps
in order (the max-current limit, then the velocity-PID coefficients,
both from the velocity profile) and `init_angle` exactly three (max
current, velocity PID, then position PID with the angle profile
hardstop count as symmetric position limit); in both sequences a step
that fails with a driver error stops the sequence (no later step is
issued) and earlier steps are not rolled back. -/
theorem init_sequences_spec (drv : Driver) (st : WrapperState) (id a m i : PyVal)
    (pr : Profiles) (hid : check_id id = .ok (a, m, i)) (hc : st.connected = true)
    (hp : st.profiles = some pr) :
    ((drv.wset (mcCall m (pyToInt a) pr.velocityparams.maxCurrent) = true →
       drv.wset (vpidCall m (pyToInt a) pr.velocityparams.velocity) = true →
       init_velocity drv st id =
         .ok [mcCall m (pyToInt a) pr.velocityparams.maxCurrent,
              vpidCall m (pyToInt a) pr.velocityparams.velocity] ())
     ∧ (drv.wset (mcCall m (pyToInt a) pr.velocityparams.maxCurrent) = false →
       init_velocity drv st id =
         .err [mcCall m (pyToInt a) pr.velocityparams.maxCurrent]
           (.driverError setterDefault []))
     ∧ (drv.wset (mcCall m (pyToInt a) pr.velocityparams.maxCurrent) = true →
       drv.wset (vpidCall m (pyToInt a) pr.velocityparams.velocity) = false →
       init_velocity drv st id =
         .err [mcCall m (pyToInt a) pr.velocityparams.maxCurrent,
               vpidCall m (pyToInt a) pr.velocityparams.velocity]
           (.driverError (vpidMsg m (pyToInt a) pr.velocityparams.velocity) [])))
    ∧ ((drv.wset (mcCall m (pyToInt a) pr.angleparams.maxCurrent) = true →
        drv.wset (vpidCall m (pyToInt a) pr.angleparams.velocity) = true →
        drv.wset (ppidCall m (pyToInt a) pr.angleparams.position
          pr.angleparams.hardstop.count) = true →
        init_angle drv st id =
          .ok [mcCall m (pyToInt a) pr.angleparams.maxCurrent,
               vpidCall m (pyToInt a) pr.angleparams.velocity,
               ppidCall m (pyToInt a) pr.angleparams.position
                 pr.angleparams.hardstop.count] ())
      ∧ (drv.wset (mcCall m (pyToInt a) pr.angleparams.maxCurrent) = false →
        init_angle drv st id =
          .err [mcCall m (pyToInt a) pr.angleparams.maxCurrent]
            (.driverError setterDefault []))
      ∧ (drv.wset (mcCall m (pyToInt a) pr.angleparams.maxCurrent) = true →
        drv.wset (vpidCall m (pyToInt a) pr.angleparams.velocity) = false →
        init_angle drv st id =
          .err [mcCall m (pyToInt a) pr.angleparams.maxCurrent,
                vpidCall m (pyToInt a) pr.angleparams.velocity]
            (.driverError (vpidMsg m (pyToInt a) pr.angleparams.velocity) []))
      ∧ (drv.wset (mcCall m (pyToInt a) pr.angleparams.maxCurrent) = true →
        drv.wset (vpidCall m (pyToInt a) pr.angleparams.velocity) = true →
        drv.wset (ppidCall m (pyToInt a) pr.angleparams.position
          pr.angleparams.hardstop.count) = false →
        init_angle drv st id =
          .err [mcCall m (pyToInt a) pr.angleparams.maxCurrent,
                vpidCall m (pyToInt a) pr.angleparams.velocity,
                ppidCall m (pyToInt a) pr.angleparams.position
                  pr.angleparams.hardstop.count]
            (.driverError (ppidMsg m (pyToInt a) pr.angleparams.position
              pr.angleparams.hardstop.count) []))) := by
  constructor
  · refine ⟨?_, ?_, ?_⟩
    · intro h1 h2
      simp [init_velocity, hp, set_max_current, set_velocity_pid, hid, hc,
        dispatchSet, apiset, h1, h2, Outcome.andThen]
    · intro h1
      simp [init_velocity, hp, set_max_current, set_velocity_pid, hid, hc,
        dispatchSet, apiset, h1, Outcome.andThen]
    · intro h1 h2
      simp [init_velocity, hp, set_max_current, set_velocity_pid, hid, hc,
        dispatchSet, apiset, h1, h2, Outcome.andThen]
  · refine ⟨?_, ?_, ?_, ?_⟩
    · intro h1 h2 h3
      simp [init_angle, hp, set_max_current, set_velocity_pid, set_position_pid,
        hid, hc, dispatchSet, apiset, h1, h2, h3, Outcome.andThen]
    · intro h1
      simp [init_angle, hp, set_max_current, set_velocity_pid, set_position_pid,
        hid, hc, dispatchSet, apiset, h1, Outcome.andThen]
    · intro h1 h2
      simp [init_angle, hp, set_max_current, set_velocity_pid, set_position_pid,
        hid, hc, dispatchSet, apiset, h1, h2, Outcome.andThen]
    · intro h1 h2 h3
      simp [init_angle, hp, set_max_current, set_velocity_pid, set_position_pid,
        hid, hc, dispatchSet, apiset, h1, h2, h3, Outcome.andThen]

/-- Witness for C7 on the all-success driver and on the all-failure
driver (first step fails, nothing later is issued). -/
theorem init_sequences_spec_w :
    init_velocity allOkDriver stOk idOk =
      .ok [.SetM1MaxCurrent 128 30, .SetM1VelocityPID 128 1 2 3 18000] ()
    ∧ init_angle allOkDriver stOk idOk =
      .ok [.SetM1MaxCurrent 128 20, .SetM1VelocityPID 128 1 2 3 18000,
           .SetM1PositionPID 128 4 5 6 7 8 (-1000) 1000] ()
    ∧ init_angle failDriver stOk idOk =
      .err [.SetM1MaxCurrent 128 20] (.driverError setterDefault []) := by
  have h := init_sequences_spec allOkDriver stOk idOk _ _ _ sampleProfiles rfl rfl rfl
  have h2 := init_sequences_spec failDriver stOk idOk _ _ _ sampleProfiles rfl rfl rfl
  exact ⟨h.1.1 rfl rfl, h.2.1 rfl rfl rfl, h2.2.2.1 rfl⟩

/-- Counterexample to C8 as stated: on a freshly constructed wrapper
(connect never ran) `init_angle` with a well-formed identifier fails
with the attribute error raised by reading the missing profile
attribute, not with the not-connected error the claim names. -/
theorem init_angle_preconnect_cex :
    init_angle allOkDriver initialState idOk = .err [] (.attrError "angleparams")
    ∧ RCError.attrError "angleparams" ≠ RCError.notConnected := by
  refine ⟨rfl, ?_⟩
  intro h
  cases h

/-- C8 (amended): for every well-formed identifier, calling
`init_angle` before connect has succeeded issues zero driver calls and
fails, but the error depends on how far connect got: with no profiles
loaded (connect never ran) the profile-attribute read raises an
attribute error, while with profiles loaded but no handle (a connect
attempt that failed to open the transport) it fails with the
not-connected error. -/
theorem init_angle_preconnect_spec (drv : Driver) (id a m i : PyVal)
    (hid : check_id id = .ok (a, m, i)) :
    (∀ st : WrapperState, st.profiles = none →
        init_angle drv st id = .err [] (.attrError "angleparams"))
    ∧ (∀ (st : WrapperState) (pr : Profiles), st.profiles = some pr →
        st.connected = false →
        init_angle drv st id = .err [] .notConnected) := by
  constructor
  · intro st hp
    simp [init_angle, hp]
  · intro st pr hp hc
    simp [init_angle, hp, set_max_current, hid, hc, Outcome.andThen]

/-- Witness for C8 in both pre-connect states. -/
theorem init_angle_preconnect_spec_w :
    init_angle allOkDriver initialState idOk = .err [] (.attrError "angleparams")
    ∧ init_angle allOkDriver ⟨false, some sampleProfiles⟩ idOk =
        .err [] .notConnected := by
  have h := init_angle_preconnect_spec allOkDriver idOk _ _ _ rfl
  exact ⟨h.1 initialState rfl, h.2 ⟨false, some sampleProfiles⟩ sampleProfiles rfl rfl⟩

end RoboClawWrapper
